import Mathlib

/-!
Verification of the attributed structured-logging utility of the
eCommerce-fastify-template repository.

The development shallowly embeds:
  * `src/config/env.ts` — resolution of `LOG_LEVEL` / `ENABLE_DEBUG` from the
    process environment (`envConfig`);
  * `src/util/logger.ts` — the winston logger construction (`makeLogger`),
    the caller-file resolution `getCallerFile`, the `printf` line formatter
    (`printfLine`) and the transport-silencing block, together with the
    `logger.info("Logger initialized successfully")` call run at module load
    (`initLogger`);
  * the small pieces of third-party behaviour the source relies on and that
    are not part of the repository: Node's `path.relative` (`pathRelative`,
    POSIX rules), winston's npm level table and its transport-level filter
    (`npmLevels`, `levelPasses`), and winston's
    `timestamp({ format: "YYYY-MM-DD HH:mm:ss" })` formatter
    (`formatTimestamp`).

JavaScript string truthiness (`""`/`null`/`undefined` are falsy) is made
explicit through `jsOrString` / `jsTruthy`.  All definitions are executable
and use structural recursion only, so concrete runs evaluate by `decide`.
-/

/-- The ASCII escape character `\x1b` used by the logger's ANSI color codes. -/
def escChar : Char := Char.ofNat 27

/-- The one-character string holding `escChar`. -/
def escStr : String := String.singleton escChar

/-- JavaScript `a || d` for an optional string `a` (`undefined`/`null`/`""`
are falsy, every other string is truthy). -/
def jsOrString (a : Option String) (d : String) : String :=
  match a with
  | none => d
  | some s => if s = "" then d else s

/-- JavaScript truthiness of an optional string. -/
def jsTruthy (a : Option String) : Bool :=
  match a with
  | none => false
  | some s => !(s == "")

/-- Whether the list starts with the pattern (helper for `jsIncludes`). -/
def listStartsWith : List Char → List Char → Bool
  | _, [] => true
  | [], _ :: _ => false
  | a :: as, b :: bs => a == b && listStartsWith as bs

/-- Whether `pat` occurs contiguously inside `l` (helper for `jsIncludes`). -/
def listContainsSub (l pat : List Char) : Bool :=
  match l with
  | [] => pat.isEmpty
  | _ :: rest => listStartsWith l pat || listContainsSub rest pat

/-- JavaScript `s.includes(pat)`. -/
def jsIncludes (s pat : String) : Bool :=
  listContainsSub s.data pat.data

/-- JavaScript `s.toUpperCase()` restricted to ASCII, which is all the source
applies it to (the seven ASCII level names). -/
def jsToUpperCase (s : String) : String :=
  String.mk (s.data.map Char.toUpper)

/-- Split a character list at `/` (helper for the POSIX path functions). -/
def splitSlash : List Char → List Char → List String
  | [], cur => [String.mk cur.reverse]
  | c :: rest, cur =>
    if c = '/' then String.mk cur.reverse :: splitSlash rest []
    else splitSlash rest (c :: cur)

/-- The non-empty `/`-separated segments of a path string. -/
def pathSegs (s : String) : List String :=
  (splitSlash s.data []).filter (fun seg => !(seg == ""))

/-- POSIX path normalization on segment lists: `.` is dropped, `..` removes
the previous segment (and vanishes at the root, as in `path.posix.resolve`
for absolute paths). -/
def normSegs (segs : List String) : List String :=
  segs.foldl
    (fun acc seg =>
      if seg = "." then acc
      else if seg = ".." then acc.dropLast
      else acc ++ [seg]) []

/-- Modelled Node `path.posix.resolve(cwd, p)` (as the segment list of the
resulting absolute path); `cwd` is assumed absolute, as `process.cwd()` is. -/
def resolveSegs (cwd p : String) : List String :=
  if p.data.head? = some '/' then normSegs (pathSegs p)
  else normSegs (pathSegs cwd ++ pathSegs p)

/-- Length of the common segment run of two resolved paths. -/
def commonSegLen : List String → List String → Nat
  | a :: as, b :: bs => if a = b then commonSegLen as bs + 1 else 0
  | _, _ => 0

/-- Join path segments with `/`. -/
def joinSegs : List String → String
  | [] => ""
  | [s] => s
  | s :: rest => s ++ "/" ++ joinSegs rest

/-- Modelled Node `path.posix.relative(cwd, p)`: resolve both against the
working directory, drop the common segment run, climb with `..` and descend
into the remainder.  Note `pathRelative cwd p = ""` whenever `p` resolves to
`cwd` itself, exactly as in Node. -/
def pathRelative (cwd p : String) : String :=
  let f := resolveSegs cwd cwd
  let t := resolveSegs cwd p
  let k := commonSegLen f t
  joinSegs ((f.drop k).map (fun _ => "..") ++ t.drop k)

/-- The seven severity names of `logger.ts` (`type LogLevel = ...`). -/
inductive LogLevel
  | error | warn | info | http | verbose | debug | silly
deriving DecidableEq

/-- The string name of a level, as used in the source. -/
def LogLevel.name : LogLevel → String
  | .error => "error"
  | .warn => "warn"
  | .info => "info"
  | .http => "http"
  | .verbose => "verbose"
  | .debug => "debug"
  | .silly => "silly"

/-- Winston's npm level priorities (third-party `winston` default table:
`error` = 0, most severe, through `silly` = 6, least severe), which
`createLogger` uses since `logger.ts` passes no custom `levels`. -/
def npmLevels : List (String × Nat) :=
  [("error", 0), ("warn", 1), ("info", 2), ("http", 3),
   ("verbose", 4), ("debug", 5), ("silly", 6)]

/-- Priority of a level as a `LogLevel` value. -/
def levelPriority (lv : LogLevel) : Nat :=
  match lv with
  | .error => 0
  | .warn => 1
  | .info => 2
  | .http => 3
  | .verbose => 4
  | .debug => 5
  | .silly => 6

/-- JavaScript `levels[name]`: lookup in winston's table, `none` for an
unknown name (JS `undefined`). -/
def levelsLookup (name : String) : Option Nat :=
  (npmLevels.find? (fun p => p.1 == name)).map (fun p => p.2)

/-- Modelled winston transport filter: a record at `recordLevel` passes a
transport whose effective level is `configLevel` iff
`levels[configLevel] >= levels[recordLevel]`; a lookup that is JS
`undefined` makes the comparison false, so an unknown configured level
suppresses everything. -/
def levelPasses (configLevel recordLevel : String) : Bool :=
  match levelsLookup configLevel, levelsLookup recordLevel with
  | some c, some r => r ≤ c
  | _, _ => false

/-- The process environment slice the logger reads (`process.env.LOG_LEVEL`
and `process.env.ENABLE_DEBUG`; `none` models an unset variable). -/
structure Env where
  LOG_LEVEL : Option String
  ENABLE_DEBUG : Option String
deriving DecidableEq

/-- The `debugging` object of `src/config/env.ts`:
`logLevel: process.env.LOG_LEVEL || "silly"` (a plain TypeScript cast, no
validation) and `enableDebug: process.env.ENABLE_DEBUG !== "false"`. -/
structure DebuggingConfig where
  logLevel : String
  enableDebug : Bool
deriving DecidableEq

/-- `src/config/env.ts`: the exported `env.debugging` configuration. -/
def envConfig (e : Env) : DebuggingConfig :=
  { logLevel := jsOrString e.LOG_LEVEL "silly"
    enableDebug := if e.ENABLE_DEBUG = some "false" then false else true }

/-- A frame of the `stack-trace` package; `getFileName()` may be JS `null`
(`none`). -/
structure StackFrame where
  fileName : Option String
deriving DecidableEq

/-- `logger.ts` line 11: the levels whose logs carry the caller file name —
all seven of them. -/
def fileNameLogLevels : List String :=
  ["error", "warn", "info", "http", "verbose", "debug", "silly"]

/-- `getCallerFile` of `logger.ts`: walk the trace; skip missing frames
(`if (!frame) continue`), skip frames whose file name is `null` or `""` or
mentions `node_modules` or `util/logger` (JS `fileName && !includes && !includes`);
return `path.relative(process.cwd(), fileName)` for the first surviving
frame, or the literal fallback when the trace is exhausted. -/
def getCallerFile (cwd : String) : List (Option StackFrame) → String
  | [] => "unknown file path"
  | none :: rest => getCallerFile cwd rest
  | some frame :: rest =>
    match frame.fileName with
    | none => getCallerFile cwd rest
    | some fileName =>
      if !(fileName == "") && !(jsIncludes fileName "node_modules")
          && !(jsIncludes fileName "util/logger") then
        pathRelative cwd fileName
      else getCallerFile cwd rest

/-- The per-call filter condition of `getCallerFile` as a frame predicate:
the file name of a present frame when it is truthy and mentions neither
`node_modules` nor `util/logger`. -/
def frameCandidate : Option StackFrame → Option String
  | none => none
  | some frame =>
    match frame.fileName with
    | none => none
    | some fileName =>
      if !(fileName == "") && !(jsIncludes fileName "node_modules")
          && !(jsIncludes fileName "util/logger") then some fileName
      else none

/-- The module-level state of `logger.ts` after `createLogger` and the
silencing block ran: the configured winston level string, the transports'
`silent` flag, and the module constant `shouldLogFileName`. -/
structure LoggerState where
  level : String
  silent : Bool
  shouldLogFileName : Bool
deriving DecidableEq

/-- `logger.ts` lines 40, 46–47 and 91–96: the logger produced at module
load.  `level` is `env.debugging.logLevel || "info"`, `shouldLogFileName`
is `fileNameLogLevels.includes(env.debugging.logLevel)`, and the transports
are silenced exactly when `env.debugging.enableDebug` is false. -/
def makeLogger (e : Env) : LoggerState :=
  let cfg := envConfig e
  { level := jsOrString (some cfg.logLevel) "info"
    silent := if cfg.enableDebug then false else true
    shouldLogFileName := fileNameLogLevels.contains cfg.logLevel }

/-- `\x1b[<code>m<s>\x1b[0m`, the color wrapping used throughout the
`printf` formatter. -/
def colorWrap (code s : String) : String :=
  escStr ++ "[" ++ code ++ "m" ++ s ++ escStr ++ "[0m"

/-- The `switch (level)` of the `printf` formatter: upper-case the level and
wrap it in the per-severity ANSI color, leaving unknown names uncolored. -/
def coloredLevelOf (level : String) : String :=
  let up := jsToUpperCase level
  if level = "error" then colorWrap "31" up
  else if level = "warn" then colorWrap "33" up
  else if level = "info" then colorWrap "32" up
  else if level = "http" then colorWrap "36" up
  else if level = "debug" then colorWrap "34" up
  else if level = "verbose" then colorWrap "90" up
  else if level = "silly" then colorWrap "90" up
  else up

/-- The ANSI color code the `switch` of the formatter assigns to each of the
seven levels (red, yellow, green, cyan, blue, gray, gray). -/
def levelColorCode : LogLevel → String
  | .error => "31"
  | .warn => "33"
  | .info => "32"
  | .http => "36"
  | .debug => "34"
  | .verbose => "90"
  | .silly => "90"

/-- The `format.printf` callback of `logger.ts` (lines 50–84) applied to a
record: `info.timestamp || ""`, `info.level || ""`, `info.message || ""`,
the colored level, the optional purple file bracket
(`shouldLogFileName ? getCallerFile() : null`, then JS-truthiness on the
result), and the final template string. -/
def printfLine (shouldLog : Bool) (callerFile : String)
    (timestamp level message : Option String) : String :=
  let ts := jsOrString timestamp ""
  let lvl := jsOrString level ""
  let msg := jsOrString message ""
  let coloredLevel := coloredLevelOf lvl
  let fileName : Option String := if shouldLog then some callerFile else none
  let coloredFileName :=
    if jsTruthy fileName then colorWrap "35" ("[" ++ jsOrString fileName "" ++ "]")
    else ""
  ts ++ " [" ++ coloredLevel ++ "]" ++ coloredFileName ++ ": " ++ msg

/-- One invocation of a level method (`logger.error(msg)` … `logger.silly(msg)`):
the list of console lines it writes.  The transport drops the record when it
is silent or when the winston level filter rejects it; otherwise the
`printf` formatter runs on the record (with the wall-clock timestamp `ts`
already attached by `format.timestamp`) and one line is written. -/
def logCall (st : LoggerState) (cwd : String) (trace : List (Option StackFrame))
    (lv : LogLevel) (msg ts : String) : List String :=
  if st.silent then []
  else if levelPasses st.level lv.name then
    [printfLine st.shouldLogFileName (getCallerFile cwd trace)
      (some ts) (some lv.name) (some msg)]
  else []

/-- A pending level-method invocation (level, message, wall-clock timestamp,
and the stack trace active at the call site). -/
structure LogRequest where
  lv : LogLevel
  msg : String
  ts : String
  trace : List (Option StackFrame)

/-- A level-method invocation as a state transformer: the source's logging
path contains no assignment to `logger.level` or to any transport's
`silent`, so the state component is returned unchanged. -/
def logCallS (st : LoggerState) (cwd : String) (r : LogRequest) :
    LoggerState × List String :=
  (st, logCall st cwd r.trace r.lv r.msg r.ts)

/-- Run a sequence of level-method invocations, threading the logger state
and collecting the emitted lines. -/
def runCalls (st : LoggerState) (cwd : String) : List LogRequest → LoggerState × List String
  | [] => (st, [])
  | r :: rs =>
    let step := logCallS st cwd r
    let rest := runCalls step.1 cwd rs
    (rest.1, step.2 ++ rest.2)

/-- Module initialization of `logger.ts`: build the logger (including the
silencing block) and run line 98,
`logger.info("Logger initialized successfully")`. -/
def initLogger (e : Env) (cwd : String) (trace : List (Option StackFrame))
    (ts : String) : LoggerState × List String :=
  let st := makeLogger e
  (st, logCall st cwd trace LogLevel.info "Logger initialized successfully" ts)

/-- State of the ANSI-escape stripper: outside any sequence, just after an
escape character, or inside a `\x1b[...m` sequence. -/
inductive StripState
  | normal | seenEsc | inSeq
deriving DecidableEq

/-- Strip `\x1b[...m` color sequences from a character list (the standard
structural assertion device of the spec: "color codes present but stripped").
An escape character not followed by `[` is kept as ordinary text. -/
def stripGo : StripState → List Char → List Char
  | .normal, [] => []
  | .normal, c :: rest =>
    if c = escChar then stripGo .seenEsc rest else c :: stripGo .normal rest
  | .seenEsc, [] => [escChar]
  | .seenEsc, c :: rest =>
    if c = '[' then stripGo .inSeq rest
    else if c = escChar then escChar :: stripGo .seenEsc rest
    else escChar :: c :: stripGo .normal rest
  | .inSeq, [] => []
  | .inSeq, c :: rest =>
    if c = 'm' then stripGo .normal rest else stripGo .inSeq rest

/-- Strip ANSI color sequences from a string. -/
def stripAnsi (s : String) : String :=
  String.mk (stripGo .normal s.data)

/-- `true` iff the string holds no escape character (so ANSI stripping
passes it through verbatim). -/
def noEsc (s : String) : Bool :=
  s.data.all (fun c => !(c == escChar))

/-- A wall-clock instant as the timestamp formatter sees it. -/
structure DateTime where
  year : Nat
  month : Nat
  day : Nat
  hour : Nat
  minute : Nat
  second : Nat

/-- The decimal digit character for `n % 10`. -/
def digitChar (n : Nat) : Char :=
  if n % 10 = 0 then '0' else if n % 10 = 1 then '1' else if n % 10 = 2 then '2'
  else if n % 10 = 3 then '3' else if n % 10 = 4 then '4' else if n % 10 = 5 then '5'
  else if n % 10 = 6 then '6' else if n % 10 = 7 then '7' else if n % 10 = 8 then '8'
  else '9'

/-- Two fixed decimal digits (the `MM`/`DD`/`HH`/`mm`/`ss` fields of the
format mask). -/
def pad2 (n : Nat) : String :=
  String.mk [digitChar (n / 10), digitChar n]

/-- Four fixed decimal digits (the `YYYY` field of the format mask). -/
def pad4 (n : Nat) : String :=
  String.mk [digitChar (n / 1000), digitChar (n / 100), digitChar (n / 10), digitChar n]

/-- Modelled winston `format.timestamp({ format: "YYYY-MM-DD HH:mm:ss" })`
(third-party; renders the wall-clock instant through the fixed mask). -/
def formatTimestamp (d : DateTime) : String :=
  pad4 d.year ++ "-" ++ pad2 d.month ++ "-" ++ pad2 d.day ++ " "
    ++ pad2 d.hour ++ ":" ++ pad2 d.minute ++ ":" ++ pad2 d.second

lemma jsOrString_name (lv : LogLevel) (d : String) : jsOrString (some lv.name) d = lv.name := by
  cases lv <;> rfl

lemma jsOrString_some_self (s : String) : jsOrString (some s) "" = s := by
  by_cases h : s = "" <;> simp [jsOrString, h]

lemma envConfig_logLevel_name (e : Env) (lv : LogLevel) (h : e.LOG_LEVEL = some lv.name) :
    (envConfig e).logLevel = lv.name := by
  simp [envConfig, h, jsOrString_name]

lemma envConfig_logLevel_ne_empty (e : Env) : (envConfig e).logLevel ≠ "" := by
  unfold envConfig jsOrString
  match e.LOG_LEVEL with
  | none => simp
  | some s =>
    by_cases h : s = "" <;> simp [h]

lemma makeLogger_level_name (e : Env) (lv : LogLevel) (h : e.LOG_LEVEL = some lv.name) :
    (makeLogger e).level = lv.name := by
  simp [makeLogger, envConfig_logLevel_name e lv h, jsOrString_name]

lemma makeLogger_level_eq (e : Env) : (makeLogger e).level = (envConfig e).logLevel := by
  have h := envConfig_logLevel_ne_empty e
  simp [makeLogger, jsOrString, h]

lemma makeLogger_silent_of_enabled (e : Env) (h : e.ENABLE_DEBUG ≠ some "false") :
    (makeLogger e).silent = false := by
  simp [makeLogger, envConfig, h]

lemma makeLogger_silent_of_disabled (e : Env) (h : e.ENABLE_DEBUG = some "false") :
    (makeLogger e).silent = true := by
  simp [makeLogger, envConfig, h]

lemma makeLogger_shouldLog_name (e : Env) (lv : LogLevel) (h : e.LOG_LEVEL = some lv.name) :
    (makeLogger e).shouldLogFileName = true := by
  have hl := envConfig_logLevel_name e lv h
  simp only [makeLogger, hl]
  cases lv <;> rfl

lemma levelPasses_name (a b : LogLevel) :
    levelPasses a.name b.name = decide (levelPriority b ≤ levelPriority a) := by
  cases a <;> cases b <;> rfl

lemma logCall_silent (st : LoggerState) (cwd : String) (trace : List (Option StackFrame))
    (lv : LogLevel) (msg ts : String) (h : st.silent = true) :
    logCall st cwd trace lv msg ts = [] := by
  simp [logCall, h]

lemma logCall_valid (e : Env) (minLv : LogLevel) (cwd : String)
    (trace : List (Option StackFrame)) (lv : LogLevel) (msg ts : String)
    (h1 : e.LOG_LEVEL = some minLv.name) (h2 : e.ENABLE_DEBUG ≠ some "false") :
    logCall (makeLogger e) cwd trace lv msg ts =
      if levelPriority lv ≤ levelPriority minLv then
        [printfLine true (getCallerFile cwd trace) (some ts) (some lv.name) (some msg)]
      else [] := by
  rw [logCall, makeLogger_silent_of_enabled e h2, makeLogger_level_name e minLv h1,
    makeLogger_shouldLog_name e minLv h1, levelPasses_name]
  simp

lemma logCall_length_valid (e : Env) (minLv : LogLevel) (cwd : String)
    (trace : List (Option StackFrame)) (lv : LogLevel) (msg ts : String)
    (h1 : e.LOG_LEVEL = some minLv.name) (h2 : e.ENABLE_DEBUG ≠ some "false") :
    (logCall (makeLogger e) cwd trace lv msg ts).length =
      if levelPriority lv ≤ levelPriority minLv then 1 else 0 := by
  rw [logCall_valid e minLv cwd trace lv msg ts h1 h2]
  by_cases h : levelPriority lv ≤ levelPriority minLv <;> simp [h]

lemma runCalls_fst (cwd : String) : ∀ (calls : List LogRequest) (st : LoggerState),
    (runCalls st cwd calls).1 = st := by
  intro calls
  induction calls with
  | nil => intro st; rfl
  | cons r rs ih => intro st; simp [runCalls, logCallS, ih]

lemma getCallerFile_eq_findSome (cwd : String) : ∀ trace : List (Option StackFrame),
    getCallerFile cwd trace =
      (match trace.findSome? frameCandidate with
       | some f => pathRelative cwd f
       | none => "unknown file path") := by
  intro trace
  induction trace with
  | nil => rfl
  | cons hd rest ih =>
    match hd with
    | none => simpa [getCallerFile, frameCandidate] using ih
    | some fr =>
      match hfr : fr.fileName with
      | none =>
        rw [List.findSome?_cons]
        simpa [getCallerFile, frameCandidate, hfr] using ih
      | some f =>
        rw [List.findSome?_cons]
        by_cases hc : (!(f == "") && !(jsIncludes f "node_modules")
            && !(jsIncludes f "util/logger")) = true
        · simp [getCallerFile, frameCandidate, hfr, hc]
        · rw [Bool.not_eq_true] at hc
          simpa [getCallerFile, frameCandidate, hfr, hc] using ih

lemma stripGo_normal_esc (l : List Char) : stripGo .normal (escChar :: l) = stripGo .seenEsc l := by
  simp [stripGo]

lemma stripGo_normal_cons (c : Char) (l : List Char) (h : c ≠ escChar) :
    stripGo .normal (c :: l) = c :: stripGo .normal l := by
  simp [stripGo, h]

lemma stripGo_seenEsc_bracket (l : List Char) : stripGo .seenEsc ('[' :: l) = stripGo .inSeq l := by
  simp [stripGo]

lemma stripGo_inSeq_m (l : List Char) : stripGo .inSeq ('m' :: l) = stripGo .normal l := by
  simp [stripGo]

lemma stripGo_inSeq_cons (c : Char) (l : List Char) (h : c ≠ 'm') :
    stripGo .inSeq (c :: l) = stripGo .inSeq l := by
  simp [stripGo, h]

lemma stripGo_normal_append (l r : List Char) (h : l.all (fun c => !(c == escChar)) = true) :
    stripGo .normal (l ++ r) = l ++ stripGo .normal r := by
  induction l with
  | nil => rfl
  | cons c cs ih =>
    rw [List.all_cons, Bool.and_eq_true] at h
    have hc : c ≠ escChar := by simpa using h.1
    simp [stripGo_normal_cons c _ hc, ih h.2]

lemma stripGo_inSeq_append (code r : List Char) (h : code.all (fun c => !(c == 'm')) = true) :
    stripGo .inSeq (code ++ 'm' :: r) = stripGo .normal r := by
  induction code with
  | nil => simpa using stripGo_inSeq_m r
  | cons c cs ih =>
    rw [List.all_cons, Bool.and_eq_true] at h
    have hc : c ≠ 'm' := by simpa using h.1
    simp [stripGo_inSeq_cons c _ hc, ih h.2]

lemma stripAnsi_append_noEsc (s t : String) (h : noEsc s = true) :
    stripAnsi (s ++ t) = s ++ stripAnsi t := by
  apply String.ext
  simp only [stripAnsi, String.data_append]
  exact stripGo_normal_append s.data t.data h

lemma stripAnsi_noEsc (s : String) (h : noEsc s = true) : stripAnsi s = s := by
  apply String.ext
  have h2 := stripGo_normal_append s.data [] h
  simpa [stripAnsi, stripGo] using h2

lemma stripAnsi_colorWrap_append (code s t : String) (hs : noEsc s = true)
    (hm : code.data.all (fun c => !(c == 'm')) = true) :
    stripAnsi (colorWrap code s ++ t) = s ++ stripAnsi t := by
  apply String.ext
  have hdata : (colorWrap code s ++ t).data
      = escChar :: '[' :: (code.data ++ 'm' :: (s.data ++ escChar :: '[' :: '0' :: 'm' :: t.data)) := by
    simp [colorWrap, escStr, String.singleton, String.data_append]
  simp only [stripAnsi, hdata]
  rw [stripGo_normal_esc, stripGo_seenEsc_bracket, stripGo_inSeq_append _ _ hm,
    stripGo_normal_append _ _ hs]
  rw [stripGo_normal_esc, stripGo_seenEsc_bracket,
    stripGo_inSeq_cons '0' _ (by decide), stripGo_inSeq_m]
  simp [String.data_append]

lemma coloredLevelOf_name (lv : LogLevel) :
    coloredLevelOf lv.name = colorWrap (levelColorCode lv) (jsToUpperCase lv.name) := by
  cases lv <;> rfl

lemma levelColorCode_no_m (lv : LogLevel) :
    (levelColorCode lv).data.all (fun c => !(c == 'm')) = true := by
  cases lv <;> decide

lemma noEsc_upper_name (lv : LogLevel) : noEsc (jsToUpperCase lv.name) = true := by
  cases lv <;> decide

lemma noEsc_append (s t : String) : noEsc (s ++ t) = (noEsc s && noEsc t) := by
  simp [noEsc, String.data_append, List.all_append]

lemma printfLine_emitted (lv : LogLevel) (cf ts msg : String) (hcf : cf ≠ "") :
    printfLine true cf (some ts) (some lv.name) (some msg) =
      ts ++ " [" ++ coloredLevelOf lv.name ++ "]" ++ colorWrap "35" ("[" ++ cf ++ "]")
        ++ ": " ++ msg := by
  simp [printfLine, jsOrString_some_self, jsOrString_name, jsTruthy, hcf]

lemma stripAnsi_emitted_line (lv : LogLevel) (cf ts msg : String)
    (hts : noEsc ts = true) (hmsg : noEsc msg = true) (hcf : noEsc cf = true) :
    stripAnsi (ts ++ " [" ++ coloredLevelOf lv.name ++ "]" ++ colorWrap "35" ("[" ++ cf ++ "]")
        ++ ": " ++ msg)
      = ts ++ " [" ++ jsToUpperCase lv.name ++ "]" ++ "[" ++ cf ++ "]" ++ ": " ++ msg := by
  have hbr : noEsc ("[" ++ (cf ++ "]")) = true := by
    rw [noEsc_append, noEsc_append, hcf]
    decide
  rw [coloredLevelOf_name]
  simp only [String.append_assoc]
  rw [stripAnsi_append_noEsc _ _ hts,
    stripAnsi_append_noEsc _ _ (by decide : noEsc " [" = true),
    stripAnsi_colorWrap_append _ _ _ (noEsc_upper_name lv) (levelColorCode_no_m lv),
    stripAnsi_append_noEsc _ _ (by decide : noEsc "]" = true),
    stripAnsi_colorWrap_append _ _ _ hbr (by decide),
    stripAnsi_append_noEsc _ _ (by decide : noEsc ": " = true),
    stripAnsi_noEsc _ hmsg]
  simp only [String.append_assoc]

lemma digitChar_ne_esc (n : Nat) : (!(digitChar n == escChar)) = true := by
  unfold digitChar
  repeat' split
  all_goals decide

lemma noEsc_pad2 (n : Nat) : noEsc (pad2 n) = true := by
  simp [noEsc, pad2, List.all, digitChar_ne_esc]

lemma noEsc_pad4 (n : Nat) : noEsc (pad4 n) = true := by
  simp [noEsc, pad4, List.all, digitChar_ne_esc]

lemma noEsc_timestamp (d : DateTime) : noEsc (formatTimestamp d) = true := by
  unfold formatTimestamp
  rw [noEsc_append, noEsc_append, noEsc_append, noEsc_append, noEsc_append, noEsc_append,
    noEsc_append, noEsc_append, noEsc_append, noEsc_append,
    noEsc_pad4, noEsc_pad2, noEsc_pad2, noEsc_pad2, noEsc_pad2, noEsc_pad2]
  decide

lemma printfLine_ts_split (sl : Bool) (cf msg ts : String) (lv : LogLevel) :
    printfLine sl cf (some ts) (some lv.name) (some msg)
      = ts ++ (" [" ++ (coloredLevelOf lv.name ++ ("]"
          ++ ((if sl && !(cf == "") then colorWrap "35" ("[" ++ cf ++ "]") else "")
            ++ (": " ++ msg))))) := by
  cases sl
  · simp only [printfLine, jsOrString_some_self, jsOrString_name, jsTruthy,
      Bool.false_and, if_false, ite_false, String.append_assoc]
    rfl
  · by_cases hcf : cf = ""
    · simp [printfLine, jsOrString_some_self, jsOrString_name, jsTruthy, hcf,
        String.append_assoc]
      rfl
    · simp [printfLine, jsOrString_some_self, jsOrString_name, jsTruthy, hcf,
        String.append_assoc]

/-- C1: for every one of the seven severity levels and every message string,
the corresponding logging operation produces exactly one output line when the
configured minimum severity is at or below that level in the ordering
error > warn > info > http > verbose > debug > silly (i.e. when the call's
level has priority ≤ the configured level's priority in winston's table),
and zero output lines when the configured minimum severity is strictly above
it. -/
theorem c1_level_filtering (e : Env) (cwd : String) (trace : List (Option StackFrame))
    (minLv lv : LogLevel) (msg ts : String)
    (hmin : e.LOG_LEVEL = some minLv.name) (hdbg : e.ENABLE_DEBUG ≠ some "false") :
    (logCall (makeLogger e) cwd trace lv msg ts).length =
      if levelPriority lv ≤ levelPriority minLv then 1 else 0 :=
  logCall_length_valid e minLv cwd trace lv msg ts hmin hdbg

/-- Witness for C1: with `LOG_LEVEL=info`, a `warn` call emits one line and a
`debug` call emits none. -/
theorem c1_level_filtering_witness :
    (logCall (makeLogger ⟨some "info", none⟩) "/app" [] LogLevel.warn "x" "T").length = 1
    ∧ (logCall (makeLogger ⟨some "info", none⟩) "/app" [] LogLevel.debug "x" "T").length = 0 := by
  have h1 := c1_level_filtering ⟨some "info", none⟩ "/app" [] LogLevel.info LogLevel.warn
    "x" "T" rfl (by decide)
  have h2 := c1_level_filtering ⟨some "info", none⟩ "/app" [] LogLevel.info LogLevel.debug
    "x" "T" rfl (by decide)
  exact ⟨by simpa [levelPriority] using h1, by simpa [levelPriority] using h2⟩

/-- C2: when `ENABLE_DEBUG` is the exact literal `"false"`, no logging
operation at any level produces output, regardless of the configured minimum
severity; for any other value, including unset, the logger is enabled (the
transports are not silenced). -/
theorem c2_kill_switch (e : Env) (cwd : String) (trace : List (Option StackFrame))
    (lv : LogLevel) (msg ts : String) :
    (e.ENABLE_DEBUG = some "false" → logCall (makeLogger e) cwd trace lv msg ts = [])
    ∧ (e.ENABLE_DEBUG ≠ some "false" →
        (envConfig e).enableDebug = true ∧ (makeLogger e).silent = false) := by
  constructor
  · intro h
    exact logCall_silent _ _ _ _ _ _ (makeLogger_silent_of_disabled e h)
  · intro h
    exact ⟨by simp [envConfig, h], makeLogger_silent_of_enabled e h⟩

/-- Witness for C2: `ENABLE_DEBUG="false"` suppresses an `error` call even at
the most verbose setting, and an unset `ENABLE_DEBUG` leaves the logger
enabled. -/
theorem c2_kill_switch_witness :
    logCall (makeLogger ⟨some "silly", some "false"⟩) "/app" [] LogLevel.error "x" "T" = []
    ∧ (makeLogger ⟨none, none⟩).silent = false :=
  ⟨(c2_kill_switch ⟨some "silly", some "false"⟩ "/app" [] LogLevel.error "x" "T").1 rfl,
   ((c2_kill_switch ⟨none, none⟩ "/app" [] LogLevel.error "x" "T").2 (by decide)).2⟩

/-- Counterexample to C3: `LOG_LEVEL="banana"` is not one of the seven
severity names, yet the effective level is `"banana"`, not `"silly"`, and an
`error` call emits zero lines instead of every call being emitted. -/
theorem c3_counterexample :
    fileNameLogLevels.contains "banana" = false
    ∧ (envConfig ⟨some "banana", none⟩).logLevel = "banana"
    ∧ (envConfig ⟨some "banana", none⟩).logLevel ≠ "silly"
    ∧ (makeLogger ⟨some "banana", none⟩).level = "banana"
    ∧ logCall (makeLogger ⟨some "banana", none⟩) "/app" [] LogLevel.error "x" "T" = [] := by
  decide

/-- C3 as amended: the fallback to `silly` happens only when `LOG_LEVEL` is
absent or the empty string (the only falsy strings); then every call at every
level is emitted.  A non-empty invalid value is passed through unvalidated as
the configured level (and, under winston's filter, suppresses all output). -/
theorem c3_fallback_amended (e : Env) (cwd : String) (trace : List (Option StackFrame))
    (lv : LogLevel) (msg ts : String)
    (hlv : e.LOG_LEVEL = none ∨ e.LOG_LEVEL = some "")
    (hdbg : e.ENABLE_DEBUG ≠ some "false") :
    (envConfig e).logLevel = "silly"
    ∧ (logCall (makeLogger e) cwd trace lv msg ts).length = 1 := by
  have hsil : (envConfig e).logLevel = "silly" := by
    rcases hlv with h | h <;> simp [envConfig, h, jsOrString]
  refine ⟨hsil, ?_⟩
  have hlev : (makeLogger e).level = "silly" := by
    rw [makeLogger_level_eq, hsil]
  have hp : levelPasses "silly" lv.name = true := by cases lv <;> rfl
  simp [logCall, makeLogger_silent_of_enabled e hdbg, hlev, hp]

/-- Witness for amended C3: with `LOG_LEVEL` unset, the level is `silly` and
a `debug` call emits one line. -/
theorem c3_fallback_amended_witness :
    (envConfig ⟨none, none⟩).logLevel = "silly"
    ∧ (logCall (makeLogger ⟨none, none⟩) "/app" [] LogLevel.debug "x" "T").length = 1 :=
  c3_fallback_amended ⟨none, none⟩ "/app" [] LogLevel.debug "x" "T" (Or.inl rfl) (by decide)

/-- Counterexample to C4: with attribution active for all levels, a call
whose first qualifying stack frame names the working directory itself gets
the empty relative path, the JS truthiness test on the empty string then
drops the file bracket entirely: the emitted line carries neither the purple
bracket marker nor the fallback literal. -/
theorem c4_counterexample :
    logCall (makeLogger ⟨some "info", none⟩) "/app" [some ⟨some "/app"⟩] LogLevel.info "hi" "T"
      = ["T [" ++ escStr ++ "[32mINFO" ++ escStr ++ "[0m]: hi"]
    ∧ jsIncludes ("T [" ++ escStr ++ "[32mINFO" ++ escStr ++ "[0m]: hi") "[35m" = false
    ∧ jsIncludes ("T [" ++ escStr ++ "[32mINFO" ++ escStr ++ "[0m]: hi") "unknown file path"
        = false
    ∧ getCallerFile "/app" [some ⟨some "/app"⟩] = "" := by
  decide

/-- C4 as amended: whenever the resolved caller path is non-empty (which
covers every real relative path and the fallback literal), every emitted
line — at every level and under every emitting configuration — carries the
file-path bracket holding that path; the bracket is dropped only in the
empty-relative-path edge case of the counterexample.  The per-level
allow-list does cover all seven severity levels. -/
theorem c4_bracket_amended (e : Env) (cwd : String) (trace : List (Option StackFrame))
    (minLv lv : LogLevel) (msg ts : String)
    (hmin : e.LOG_LEVEL = some minLv.name) (hdbg : e.ENABLE_DEBUG ≠ some "false")
    (hcf : getCallerFile cwd trace ≠ "") :
    fileNameLogLevels.contains minLv.name = true
    ∧ logCall (makeLogger e) cwd trace lv msg ts =
        List.replicate (logCall (makeLogger e) cwd trace lv msg ts).length
          (ts ++ " [" ++ coloredLevelOf lv.name ++ "]"
            ++ colorWrap "35" ("[" ++ getCallerFile cwd trace ++ "]") ++ ": " ++ msg) := by
  refine ⟨by cases minLv <;> rfl, ?_⟩
  rw [logCall_valid e minLv cwd trace lv msg ts hmin hdbg]
  by_cases h : levelPriority lv ≤ levelPriority minLv <;>
    simp [h, printfLine_emitted lv _ ts msg hcf]

/-- Witness for amended C4: a `silly`-threshold logger called at `error`
from a project file emits one line carrying the `[src/routes/root.ts]`
bracket. -/
theorem c4_bracket_amended_witness :
    fileNameLogLevels.contains LogLevel.silly.name = true
    ∧ logCall (makeLogger ⟨some "silly", none⟩) "/app"
          [some ⟨some "/app/src/routes/root.ts"⟩] LogLevel.error "boom" "T" =
        List.replicate
          (logCall (makeLogger ⟨some "silly", none⟩) "/app"
            [some ⟨some "/app/src/routes/root.ts"⟩] LogLevel.error "boom" "T").length
          ("T" ++ " [" ++ coloredLevelOf LogLevel.error.name ++ "]"
            ++ colorWrap "35"
              ("[" ++ getCallerFile "/app" [some ⟨some "/app/src/routes/root.ts"⟩] ++ "]")
            ++ ": " ++ "boom") :=
  c4_bracket_amended ⟨some "silly", none⟩ "/app" [some ⟨some "/app/src/routes/root.ts"⟩]
    LogLevel.silly LogLevel.error "boom" "T" rfl (by decide) (by decide)

/-- C5: the caller-location resolution walks the frames from the innermost
outward and returns the path, relative to the process working directory, of
the first frame whose source file exists and is neither part of the logger's
own implementation (`util/logger`) nor third-party library code
(`node_modules`); if no such frame exists, it returns exactly
`"unknown file path"`. -/
theorem c5_caller_resolution (cwd : String) (trace : List (Option StackFrame)) :
    getCallerFile cwd trace =
      (match trace.findSome? frameCandidate with
       | some f => pathRelative cwd f
       | none => "unknown file path") :=
  getCallerFile_eq_findSome cwd trace

/-- Counterexample to C6: an emitted line whose caller file resolves to the
empty relative path lacks the `[<path-or-fallback>]` bracket after ANSI
stripping, so the claimed structure (which requires the `][` juncture
between level and path) does not hold for every emitted line. -/
theorem c6_counterexample :
    (logCall (makeLogger ⟨some "info", none⟩) "/app" [some ⟨some "/app"⟩] LogLevel.info
        "hello" (formatTimestamp ⟨2024, 1, 2, 3, 4, 5⟩)).map stripAnsi
      = ["2024-01-02 03:04:05 [INFO]: hello"]
    ∧ jsIncludes "2024-01-02 03:04:05 [INFO]: hello" "][" = false := by
  decide

/-- C6 as amended: whenever the resolved caller path is non-empty and the
message and path carry no escape character, every emitted log line, after
stripping ANSI color sequences, is exactly
`<timestamp> [<LEVEL>][<path-or-fallback>]: <message>` with the timestamp
rendered through the `YYYY-MM-DD HH:mm:ss` mask and the level upper-cased;
in the empty-relative-path edge case of the counterexample the path bracket
is absent. -/
theorem c6_line_structure_amended (e : Env) (cwd : String)
    (trace : List (Option StackFrame)) (minLv lv : LogLevel) (msg : String) (d : DateTime)
    (hmin : e.LOG_LEVEL = some minLv.name) (hdbg : e.ENABLE_DEBUG ≠ some "false")
    (hmsg : noEsc msg = true) (hcf : getCallerFile cwd trace ≠ "")
    (hcfe : noEsc (getCallerFile cwd trace) = true) :
    (logCall (makeLogger e) cwd trace lv msg (formatTimestamp d)).map stripAnsi =
      List.replicate (logCall (makeLogger e) cwd trace lv msg (formatTimestamp d)).length
        (formatTimestamp d ++ " [" ++ jsToUpperCase lv.name ++ "]"
          ++ "[" ++ getCallerFile cwd trace ++ "]" ++ ": " ++ msg) := by
  rw [logCall_valid e minLv cwd trace lv msg _ hmin hdbg]
  by_cases h : levelPriority lv ≤ levelPriority minLv <;>
    simp [h, printfLine_emitted lv _ _ msg hcf,
      stripAnsi_emitted_line lv _ _ msg (noEsc_timestamp d) hmsg hcfe]

/-- Witness for amended C6: a concrete `info` call from a project file under
the default threshold produces the expected stripped line. -/
theorem c6_line_structure_amended_witness :
    (logCall (makeLogger ⟨some "silly", none⟩) "/app" [some ⟨some "/app/src/a.ts"⟩]
        LogLevel.info "hello" (formatTimestamp ⟨2024, 1, 2, 3, 4, 5⟩)).map stripAnsi =
      List.replicate
        (logCall (makeLogger ⟨some "silly", none⟩) "/app" [some ⟨some "/app/src/a.ts"⟩]
          LogLevel.info "hello" (formatTimestamp ⟨2024, 1, 2, 3, 4, 5⟩)).length
        (formatTimestamp ⟨2024, 1, 2, 3, 4, 5⟩ ++ " [" ++ jsToUpperCase LogLevel.info.name
          ++ "]" ++ "[" ++ getCallerFile "/app" [some ⟨some "/app/src/a.ts"⟩] ++ "]"
          ++ ": " ++ "hello") :=
  c6_line_structure_amended ⟨some "silly", none⟩ "/app" [some ⟨some "/app/src/a.ts"⟩]
    LogLevel.silly LogLevel.info "hello" ⟨2024, 1, 2, 3, 4, 5⟩ rfl (by decide) (by decide)
    (by decide) (by decide)

/-- C7: module initialization emits exactly one informational record
announcing successful setup (the `info` call with message
`"Logger initialized successfully"`), and that record is subject to the same
filtering as any other call: it is suppressed when `ENABLE_DEBUG` is the
disabling literal, and emitted iff the configured minimum severity is at or
below `info` otherwise. -/
theorem c7_init_record (e : Env) (cwd : String) (trace : List (Option StackFrame))
    (ts : String) :
    ((initLogger e cwd trace ts).2
        = logCall (makeLogger e) cwd trace LogLevel.info "Logger initialized successfully" ts)
    ∧ (e.ENABLE_DEBUG = some "false" → (initLogger e cwd trace ts).2 = [])
    ∧ (∀ minLv : LogLevel, e.LOG_LEVEL = some minLv.name → e.ENABLE_DEBUG ≠ some "false" →
        (initLogger e cwd trace ts).2.length
          = if levelPriority LogLevel.info ≤ levelPriority minLv then 1 else 0) := by
  refine ⟨rfl, ?_, ?_⟩
  · intro h
    exact logCall_silent _ _ _ _ _ _ (makeLogger_silent_of_disabled e h)
  · intro minLv h1 h2
    exact logCall_length_valid e minLv cwd trace LogLevel.info _ ts h1 h2

/-- Witness for C7: the setup record is emitted under `LOG_LEVEL=info`,
suppressed under `LOG_LEVEL=warn` (more severe than `info`), and suppressed
by `ENABLE_DEBUG="false"`. -/
theorem c7_init_record_witness :
    (initLogger ⟨some "info", none⟩ "/app" [] "T").2.length = 1
    ∧ (initLogger ⟨some "warn", none⟩ "/app" [] "T").2.length = 0
    ∧ (initLogger ⟨some "silly", some "false"⟩ "/app" [] "T").2 = [] := by
  have h1 := (c7_init_record ⟨some "info", none⟩ "/app" [] "T").2.2 LogLevel.info rfl
    (by decide)
  have h2 := (c7_init_record ⟨some "warn", none⟩ "/app" [] "T").2.2 LogLevel.warn rfl
    (by decide)
  have h3 := (c7_init_record ⟨some "silly", some "false"⟩ "/app" [] "T").2.1 rfl
  exact ⟨by simpa [levelPriority] using h1, by simpa [levelPriority] using h2, h3⟩

/-- C8: calling the same operation twice with the same message from the same
call site under the same configuration yields lines that agree on everything
after the timestamp: there is a single tail such that each call emits
(exactly when the filter lets it through) its own timestamp followed by that
common tail. -/
theorem c8_repeat_calls (st : LoggerState) (cwd : String)
    (trace : List (Option StackFrame)) (lv : LogLevel) (msg ts1 ts2 : String) :
    ∃ tail : String,
      logCall st cwd trace lv msg ts1
        = (if st.silent then []
           else if levelPasses st.level lv.name then [ts1 ++ tail] else [])
      ∧ logCall st cwd trace lv msg ts2
        = (if st.silent then []
           else if levelPasses st.level lv.name then [ts2 ++ tail] else []) := by
  refine ⟨" [" ++ (coloredLevelOf lv.name ++ ("]"
      ++ ((if st.shouldLogFileName && !(getCallerFile cwd trace == "") then
            colorWrap "35" ("[" ++ getCallerFile cwd trace ++ "]")
          else "")
        ++ (": " ++ msg)))), ?_, ?_⟩ <;>
    · by_cases hs : st.silent
      · simp [logCall, hs]
      · by_cases hp : levelPasses st.level lv.name <;>
          simp [logCall, hs, hp, printfLine_ts_split]

/-- C9: exactly one threshold and one enabled flag are in effect: the logger
state is a function of the environment alone (level is the configured string,
the transports are silent exactly when `ENABLE_DEBUG` is the literal
`"false"`, and the `|| "info"` fallback on the level is dead code since the
configured level is never empty), and running any sequence of logging calls
leaves that state unchanged. -/
theorem c9_config_immutable (e : Env) (cwd : String) (calls : List LogRequest) :
    (runCalls (makeLogger e) cwd calls).1 = makeLogger e
    ∧ (makeLogger e).level = (envConfig e).logLevel
    ∧ (makeLogger e).silent = (if e.ENABLE_DEBUG = some "false" then true else false) := by
  refine ⟨runCalls_fst cwd calls _, makeLogger_level_eq e, ?_⟩
  by_cases h : e.ENABLE_DEBUG = some "false" <;> simp [makeLogger, envConfig, h]

/-- Counterexample to C10: on a trace whose first qualifying frame names the
working directory itself, `getCallerFile` returns the empty string — not a
non-empty string, and not the fallback literal. -/
theorem c10_counterexample :
    getCallerFile "/work" [some ⟨some "/work"⟩] = ""
    ∧ getCallerFile "/work" [some ⟨some "/work"⟩] ≠ "unknown file path" := by
  decide

/-- C10 as amended: the caller-file resolution is total on arbitrary traces:
missing frames and frames with a `null` file name are skipped without being
dereferenced, and the result is always either the relative path of the first
qualifying frame's file (which is empty in the edge case of the
counterexample) or exactly the fallback literal. -/
theorem c10_totality_amended (cwd : String) (trace : List (Option StackFrame)) :
    getCallerFile cwd (none :: trace) = getCallerFile cwd trace
    ∧ getCallerFile cwd (some ⟨none⟩ :: trace) = getCallerFile cwd trace
    ∧ (getCallerFile cwd trace = "unknown file path"
       ∨ ∃ f, trace.findSome? frameCandidate = some f
           ∧ getCallerFile cwd trace = pathRelative cwd f) := by
  refine ⟨rfl, rfl, ?_⟩
  have h := getCallerFile_eq_findSome cwd trace
  match hf : trace.findSome? frameCandidate with
  | none => exact Or.inl (by rw [h, hf])
  | some f => exact Or.inr ⟨f, rfl, by rw [h, hf]⟩
